import Mathlib

/-!
Shallow embedding of the core of the `futures-bot` repository, and proofs
checking its natural-language specification against the code.

Conventions of the embedding:
* SQLite rows become Lean structures; the database becomes a `Store` record of
  row lists; every SQL statement becomes an explicit pure function on `Store`.
* Python `float` prices/quantities are embedded as `ℚ`.
* Python truthiness on optional numeric fields (`if not trade['stop_loss']`,
  `if current_price:`) is embedded by `pyTruthy`: `None` and `0` are falsy.
* Network calls (`ccxt`) are parameters (oracles) of the functions that make
  them; exceptions become `Except`/`Option`.
* Each definition's doc comment names the Python function it transcribes.
-/

namespace FuturesBot

/-- Python truthiness of an optional numeric value: `None` and `0.0` are falsy
(used by `if not trade['stop_loss']`, `if current_price:` and similar tests in
`src/trading/auto_trader.py`). -/
def pyTruthy : Option ℚ → Bool
  | none => false
  | some v => v != 0

/-- Python truthiness of an optional string (`if not cls.BOT_TOKEN` in
`src/config/settings.py`): `None` and the empty string are falsy. -/
def pyTruthyStr : Option String → Bool
  | none => false
  | some s => s != ""

/-- Python's `str.upper()` (semantically `String.toUpper`, written by
structural recursion over the character list so that it evaluates inside
proofs). -/
def pyUpper (s : String) : String :=
  String.mk (s.data.map Char.toUpper)

/-- A row of the `signals` table (schema in `src/database/models.py:71-89`).
Timestamps are abstracted to naturals. -/
structure SignalRow where
  id : Nat
  symbol : String
  signalType : String
  entryPrice : ℚ
  stopLoss : Option ℚ
  takeProfit : Option ℚ
  leverage : Nat
  positionSizePercent : ℚ
  status : String
  expiresAt : Nat
  createdAt : Nat
  deriving Repr, DecidableEq

/-- A row of the `trade_executions` table (schema in
`src/database/models.py:92-111`). `closedAt` records whether `closed_at` has
been stamped. The table has no `close_reason` column. -/
structure TradeRow where
  id : Nat
  signalId : Nat
  userId : Nat
  exchangeName : String
  symbol : String
  side : String
  quantity : ℚ
  entryPrice : ℚ
  currentPrice : Option ℚ
  pnl : ℚ
  status : String
  closedAt : Bool
  deriving Repr, DecidableEq

/-- A user together with its `subscriptions` row, as consumed by
`UserModel.get_subscribed_users` (src/database/models.py:295-318). -/
structure UserRow where
  id : Nat
  telegramId : Nat
  isSubscribed : Bool
  autoTrade : Bool
  deriving Repr, DecidableEq

/-- A row of the `exchanges` table as returned by
`ExchangeModel.get_user_exchanges` (src/database/models.py:345-370).
Encrypted secrets are ciphertext strings. -/
structure ExchangeRow where
  id : Nat
  userId : Nat
  exchangeName : String
  apiKeyEncrypted : String
  apiSecretEncrypted : String
  passphraseEncrypted : String
  isActive : Bool
  autoTrade : Bool
  leverage : Nat
  positionSizePercent : ℚ
  deriving Repr, DecidableEq

/-- The SQLite database (`data/trading_bot.db`) restricted to the tables the
core engines read and write. -/
structure Store where
  users : List UserRow
  exchanges : List ExchangeRow
  signals : List SignalRow
  trades : List TradeRow
  deriving Repr, DecidableEq

/-- `SignalModel.get_pending_signals` (src/database/models.py:535-560):
`SELECT ... FROM signals WHERE status = 'pending' AND expires_at >
CURRENT_TIMESTAMP ORDER BY created_at ASC`. Rows are kept in stored order;
`now` stands for `CURRENT_TIMESTAMP`. -/
def get_pending_signals (st : Store) (now : Nat) : List SignalRow :=
  st.signals.filter (fun s => s.status == "pending" && now < s.expiresAt)

/-- `SignalModel.mark_signal_processed` (src/database/models.py:562-572):
`UPDATE signals SET status = 'processed' WHERE id = ?`. The write is
unconditional: no `status` value is required of the row being updated. -/
def mark_signal_processed (st : Store) (sigId : Nat) : Store :=
  { st with
    signals := st.signals.map (fun s =>
      if s.id = sigId then { s with status := "processed" } else s) }

/-- `UserModel.get_subscribed_users` (src/database/models.py:295-318): users
joined with their subscription, keeping those with `is_subscribed = 1` that
have at least one `is_active = 1` exchange row. -/
def get_subscribed_users (st : Store) : List UserRow :=
  st.users.filter (fun u =>
    u.isSubscribed && st.exchanges.any (fun e => e.userId == u.id && e.isActive))

/-- `ExchangeModel.get_user_exchanges` (src/database/models.py:345-370):
`SELECT ... FROM exchanges WHERE user_id = ? AND is_active = 1`. -/
def get_user_exchanges (st : Store) (uid : Nat) : List ExchangeRow :=
  st.exchanges.filter (fun e => e.userId == uid && e.isActive)

/-- `TradeModel.get_active_trades` (src/database/models.py:627-651):
`SELECT ... FROM trade_executions WHERE status = 'open'`. -/
def get_active_trades (st : Store) : List TradeRow :=
  st.trades.filter (fun t => t.status == "open")

/-- The dictionary shape produced by `TradeModel.get_open_trades`
(src/database/models.py:733-760): a `trade_executions` row joined with its
signal's `stop_loss`/`take_profit`. -/
structure OpenTrade where
  id : Nat
  signalId : Nat
  userId : Nat
  exchangeName : String
  symbol : String
  side : String
  quantity : ℚ
  entryPrice : ℚ
  currentPrice : Option ℚ
  pnl : ℚ
  stopLoss : Option ℚ
  takeProfit : Option ℚ
  deriving Repr, DecidableEq

/-- `TradeModel.get_open_trades` (src/database/models.py:733-760):
`SELECT t.*, s.stop_loss, s.take_profit FROM trade_executions t JOIN signals s
ON t.signal_id = s.id WHERE t.status = 'open'` (the inner join drops trades
without a matching signal; result ordering is irrelevant to the claims). -/
def get_open_trades (st : Store) : List OpenTrade :=
  st.trades.filterMap (fun t =>
    if t.status == "open" then
      match st.signals.find? (fun s => s.id == t.signalId) with
      | some s =>
          some { id := t.id, signalId := t.signalId, userId := t.userId,
                 exchangeName := t.exchangeName, symbol := t.symbol,
                 side := t.side, quantity := t.quantity,
                 entryPrice := t.entryPrice, currentPrice := t.currentPrice,
                 pnl := t.pnl, stopLoss := s.stopLoss,
                 takeProfit := s.takeProfit }
      | none => none
    else none)

/-- `TradeModel.update_trade_pnl` (src/database/models.py:762-774):
`UPDATE trade_executions SET pnl = ?, current_price = ? WHERE id = ?`. -/
def update_trade_pnl (st : Store) (tradeId : Nat) (pnl price : ℚ) : Store :=
  { st with
    trades := st.trades.map (fun t =>
      if t.id = tradeId then { t with pnl := pnl, currentPrice := some price }
      else t) }

/-- `TradeModel.close_trade` (src/database/models.py:776-788):
`UPDATE trade_executions SET status = 'closed', current_price = ?, pnl = ?,
closed_at = CURRENT_TIMESTAMP WHERE id = ?`. The write is unconditional — the
`WHERE` clause tests only `id`, not the current `status` — and the `reason`
parameter is ignored by the SQL (`trade_executions` has no such column). -/
def close_trade (st : Store) (tradeId : Nat) (closePrice finalPnl : ℚ)
    (reason : String) : Store :=
  { st with
    trades := st.trades.map (fun t =>
      if t.id = tradeId then
        { t with status := "closed", currentPrice := some closePrice,
                 pnl := finalPnl, closedAt := true }
      else t) }

/-- `TradeModel.create_trade` side normalization
(src/database/models.py:797): `side = 'BUY' if action.upper() in ['LONG',
'BUY'] else 'SELL'` — the stored `side` of every created trade is `'BUY'` or
`'SELL'`, never `'LONG'`/`'SHORT'`. -/
def create_trade_side (action : String) : String :=
  if pyUpper action == "LONG" || pyUpper action == "BUY" then "BUY" else "SELL"

/-! ## Position Monitoring Engine (`src/trading/auto_trader.py` and the
`FuturesTrader` pieces it calls, `src/exchanges/futures_trader.py`). -/

/-- Result dictionary of `FuturesTrader.close_position`. -/
structure CloseResult where
  success : Bool
  closePrice : ℚ
  pnl : ℚ
  deriving Repr, DecidableEq

/-- `FuturesTrader.close_position` (src/exchanges/futures_trader.py:195-210).
The body is transcribed as it stands in the source: it performs no exchange
call (the comment in the source says an opposite-side market order "would" be
placed) and returns the constant dictionary
`{'success': True, 'close_price': 0.0, 'pnl': 0.0}` for every trade. -/
def ft_close_position (_trade : OpenTrade) : CloseResult :=
  { success := true, closePrice := 0, pnl := 0 }

/-- `AutoTrader.close_position` (src/trading/auto_trader.py:129-147): calls
`FuturesTrader.close_position`; if `result['success']` it calls
`TradeModel.close_trade(trade['id'], result['close_price'], result['pnl'],
reason)`. -/
def at_close_position (st : Store) (trade : OpenTrade) (reason : String) :
    Store :=
  let result := ft_close_position trade
  if result.success then
    close_trade st trade.id result.closePrice result.pnl reason
  else st

/-- The P\&L formula of `AutoTrader.update_trade_pnl`
(src/trading/auto_trader.py:64-67): the long formula is used when
`trade['side'].upper() == 'LONG'`; every other side value — including the
`'BUY'`/`'SELL'` stored by `create_trade` — takes the `else` (short) branch. -/
def compute_pnl (side : String) (entry current qty : ℚ) : ℚ :=
  if pyUpper side == "LONG" then (current - entry) * qty
  else (entry - current) * qty

/-- One iteration of the loop of `AutoTrader.monitor_positions` /
`AutoTrader.update_trade_pnl` (src/trading/auto_trader.py:54-73) for one open
trade, with the fetched ticker price passed in (`fetched` models the result of
`FuturesTrader.get_current_price`, `None` on error). The update is performed
only `if current_price:` (truthy). -/
def update_trade_pnl_step (st : Store) (t : OpenTrade) (fetched : Option ℚ) :
    Store :=
  if pyTruthy fetched then
    let p := fetched.getD 0
    update_trade_pnl st t.id (compute_pnl t.side t.entryPrice p t.quantity) p
  else st

/-- The trigger test of `AutoTrader.check_stop_losses`
(src/trading/auto_trader.py:88-94): `should_close` becomes true when the side
uppercases to `'LONG'` and `current_price <= stop_loss`, or to `'SHORT'` and
`current_price >= stop_loss`; any other side value leaves it false. -/
def should_close_stop_loss (side : String) (current stopLoss : ℚ) : Bool :=
  if pyUpper side == "LONG" && current ≤ stopLoss then true
  else if pyUpper side == "SHORT" && current ≥ stopLoss then true
  else false

/-- The trigger test of `AutoTrader.check_take_profits`
(src/trading/auto_trader.py:115-121). -/
def should_close_take_profit (side : String) (current takeProfit : ℚ) : Bool :=
  if pyUpper side == "LONG" && current ≥ takeProfit then true
  else if pyUpper side == "SHORT" && current ≤ takeProfit then true
  else false

/-- `AutoTrader.check_stop_losses` (src/trading/auto_trader.py:75-100):
fetch the open trades once, and for each one skip it when `not
trade['stop_loss']`, fetch the ticker price (`price` is the
`get_current_price` oracle), and `if current_price:` evaluate the trigger and
close on trigger with reason `'STOP_LOSS'`. -/
def check_stop_losses (price : String → String → Option ℚ) (st : Store) :
    Store :=
  (get_open_trades st).foldl
    (fun acc t =>
      if !pyTruthy t.stopLoss then acc
      else
        let fetched := price t.exchangeName t.symbol
        if pyTruthy fetched then
          if should_close_stop_loss t.side (fetched.getD 0) (t.stopLoss.getD 0)
          then at_close_position acc t "STOP_LOSS"
          else acc
        else acc)
    st

/-- `AutoTrader.check_take_profits` (src/trading/auto_trader.py:102-127),
analogous to `check_stop_losses` with reason `'TAKE_PROFIT'`. -/
def check_take_profits (price : String → String → Option ℚ) (st : Store) :
    Store :=
  (get_open_trades st).foldl
    (fun acc t =>
      if !pyTruthy t.takeProfit then acc
      else
        let fetched := price t.exchangeName t.symbol
        if pyTruthy fetched then
          if should_close_take_profit t.side (fetched.getD 0)
              (t.takeProfit.getD 0)
          then at_close_position acc t "TAKE_PROFIT"
          else acc
        else acc)
    st

/-- `AutoTrader.monitor_positions` (src/trading/auto_trader.py:42-52): fetch
the open trades once and run `update_trade_pnl` on each. -/
def monitor_positions (price : String → String → Option ℚ) (st : Store) :
    Store :=
  (get_open_trades st).foldl
    (fun acc t => update_trade_pnl_step acc t (price t.exchangeName t.symbol))
    st

/-! ## Signal Distribution Engine (`src/trading/signal_processor.py` and
`FuturesTrader.execute_signal_trade`, `src/exchanges/futures_trader.py`). -/

/-- Python runtime errors raised by the transcribed code paths. -/
inductive PyError
  | attributeError (msg : String)
  | typeError (msg : String)
  deriving Repr, DecidableEq

/-- A log record emitted through `logger.error` / `logger.info`. -/
inductive LogEvent
  | errorLog (msg : String)
  | infoLog (msg : String)
  deriving Repr, DecidableEq

/-- Result dictionary of `FuturesTrader.execute_trade`
(src/exchanges/futures_trader.py:62-121); only `success` is consulted by
`execute_signal_trade`. -/
structure TradeResult where
  success : Bool
  deriving Repr, DecidableEq

/-- The attribute lookup `self.auth_manager.db` performed first by
`FuturesTrader.execute_signal_trade` (src/exchanges/futures_trader.py:217).
`ExchangeAuthManager.__init__` (src/exchanges/auth_manager.py:21-24) assigns
only `fernet` and `auth_sessions`, so the instance has no `db` attribute and
the lookup raises `AttributeError` on every call. -/
def auth_manager_db : Except PyError Unit :=
  .error (.attributeError
    "ExchangeAuthManager object has no attribute db")

/-- `FuturesTrader.execute_signal_trade` (src/exchanges/futures_trader.py:
212-227). Its body first builds `ExchangeModel(self.auth_manager.db)`; the
attribute lookup raises (see `auth_manager_db`) and the method's own `except`
catches and logs it. On the (unreachable) non-raising path the method loops
over the user's active exchanges, calls `execute_trade` for each with
`auto_trade` truthy (`execTrade` is the network oracle for it) and logs
successes; on no path does it write to the store — in particular it never
calls `TradeModel.create_trade` or `record_trade_execution`. -/
def ft_execute_signal_trade (execTrade : ExchangeRow → SignalRow → TradeResult)
    (st : Store) (user : UserRow) (sig : SignalRow) : Store × List LogEvent :=
  match auth_manager_db with
  | .error _ =>
      (st, [.errorLog ("Error executing signal trade: AttributeError, user "
              ++ toString user.id)])
  | .ok _ =>
      (st, (get_user_exchanges st user.id).foldl
        (fun logs e =>
          if e.autoTrade then
            if (execTrade e sig).success then
              logs ++ [.infoLog ("Signal executed for user "
                        ++ toString user.id)]
            else logs
          else logs) [])

/-- The subscriber loop of `SignalProcessor.execute_signal`
(src/trading/signal_processor.py:54-63): fetch the subscribed users and call
`FuturesTrader.execute_signal_trade` for each, accumulating logs (each user's
errors are caught by the per-user `try`). This is everything the method does
before `mark_signal_processed` — no signal-status write occurs in it. -/
def sp_order_phase (execTrade : ExchangeRow → SignalRow → TradeResult)
    (st : Store) (sig : SignalRow) : Store × List LogEvent :=
  (get_subscribed_users st).foldl
    (fun acc u =>
      let r := ft_execute_signal_trade execTrade acc.1 u sig
      (r.1, acc.2 ++ r.2))
    (st, [])

/-- `SignalProcessor.execute_signal` (src/trading/signal_processor.py:51-69):
run the subscriber loop, then `SignalModel.mark_signal_processed`. -/
def sp_execute_signal (execTrade : ExchangeRow → SignalRow → TradeResult)
    (st : Store) (sig : SignalRow) : Store × List LogEvent :=
  let r := sp_order_phase execTrade st sig
  (mark_signal_processed r.1 sig.id, r.2)

/-- An observable step of `SignalProcessor.execute_signal`: the per-user order
attempt (the call into `FuturesTrader.execute_signal_trade`, the only point at
which an order for that user could originate), or a write to the signal's
`status` column. -/
inductive SDEvent
  | orderAttempt (userId : Nat)
  | statusWrite (sigId : Nat) (newStatus : String)
  deriving Repr, DecidableEq

/-- The event trace of `SignalProcessor.execute_signal`
(src/trading/signal_processor.py:51-69), read off the source line by line: the
method loops over `get_subscribed_users()` calling
`futures_trader.execute_signal_trade` per user (lines 55-63), then performs
its only signal-status write, `mark_signal_processed` (line 66), which sets
`status = 'processed'` unconditionally. No other statement touches
`signals.status`, and the string `'processing'` is never written anywhere in
the repository. -/
def sp_execute_signal_events (st : Store) (sig : SignalRow) : List SDEvent :=
  ((get_subscribed_users st).map (fun u => SDEvent.orderAttempt u.id))
    ++ [SDEvent.statusWrite sig.id "processed"]

/-! ## Credential Vault (`src/exchanges/auth_manager.py`). -/

/-- The symmetric cipher held by `ExchangeAuthManager` (the `Fernet` instance
built in `_setup_encryption`, src/exchanges/auth_manager.py:26-41). The
library cipher is a parameter of the embedding: `enc` encrypts a plaintext,
`dec` returns `none` on an invalid token. Plaintexts and ciphertexts are byte
strings, embedded as `String`. -/
structure Cipher where
  enc : String → String
  dec : String → Option String

/-- `ExchangeAuthManager.encrypt_credentials`
(src/exchanges/auth_manager.py:43-54): encrypt key and secret; the passphrase
is encrypted only `if passphrase` (truthy), otherwise the sentinel `b''` is
stored. -/
def encrypt_credentials (c : Cipher) (apiKey apiSecret passphrase : String) :
    String × String × String :=
  (c.enc apiKey, c.enc apiSecret,
    if passphrase ≠ "" then c.enc passphrase else "")

/-- `ExchangeAuthManager.decrypt_credentials`
(src/exchanges/auth_manager.py:56-67): decrypt key and secret; the passphrase
ciphertext is decrypted only `if encrypted_passphrase` (truthy, i.e. the
sentinel `b''` maps back to `''`). A failed decryption propagates (`none`),
matching the re-raise in the source. -/
def decrypt_credentials (c : Cipher) (encKey encSecret encPassphrase : String) :
    Option (String × String × String) := do
  let apiKey ← c.dec encKey
  let apiSecret ← c.dec encSecret
  let passphrase ← if encPassphrase ≠ "" then c.dec encPassphrase
                   else pure ""
  pure (apiKey, apiSecret, passphrase)

/-! ## Balance fetch (`FuturesTrader.get_balance`,
`src/exchanges/futures_trader.py:123-130`). -/

/-- Outcome of `await exchange.fetch_balance()`: a successful response with
per-currency free balances, or any raised error (network, auth, non-success
HTTP response). -/
inductive FetchBalanceResult
  | ok (balances : List (String × ℚ))
  | err (msg : String)
  deriving Repr, DecidableEq

/-- `FuturesTrader.get_balance` (src/exchanges/futures_trader.py:123-130):
`return balance['USDT']['free'] if 'USDT' in balance else 0.0`, and the
`except` clause logs and `return 0.0` on any error. The function never
raises and never distinguishes an error from a zero balance. -/
def get_balance (r : FetchBalanceResult) : ℚ :=
  match r with
  | .ok balances =>
      match balances.lookup "USDT" with
      | some v => v
      | none => 0
  | .err _ => 0

/-- Modelled from the spec (refinement comparison for the `fetchBalance`
contract): `fetchBalance(creds) -> decimal ... fails with ExchangeAPIError on
any non-success response, auth failure, or network error`. -/
def spec_fetchBalance (r : FetchBalanceResult) : Except String ℚ :=
  match r with
  | .ok balances =>
      match balances.lookup "USDT" with
      | some v => .ok v
      | none => .error "ExchangeAPIError"
  | .err m => .error m

/-! ## Configuration and startup (`src/config/settings.py`, `src/app.py`). -/

/-- The process environment as read by `Config`
(src/config/settings.py:10-12): `os.getenv` returns `None` for an absent
variable; `ADMIN_ID` is parsed with default `0`. -/
structure Env where
  botToken : Option String
  adminId : Nat
  encryptionKey : Option String
  deriving Repr, DecidableEq

/-- `Config.ENCRYPTION_KEY` (src/config/settings.py:12):
`os.getenv('ENCRYPTION_KEY', 'your-secret-key-here')` — an absent master
secret is silently replaced by the hardcoded default. -/
def config_encryption_key (env : Env) : String :=
  env.encryptionKey.getD "your-secret-key-here"

/-- `Config.validate` (src/config/settings.py:99-111): raises when
`BOT_TOKEN` is falsy or `ADMIN_ID` is falsy (`0`); otherwise creates the data
directories and returns `True`. It performs no check of `ENCRYPTION_KEY`.
`app.main` (src/app.py:28-32) calls it inside its startup `try`, so the
process refuses to start exactly when this raises. -/
def config_validate (env : Env) : Except String Unit :=
  if !pyTruthyStr env.botToken then
    .error "BOT_TOKEN is required in .env file"
  else if env.adminId == 0 then
    .error "ADMIN_ID is required in .env file"
  else .ok ()

/-! ## Admin emergency close (`AdminHandlers._confirm_close_all_positions`,
`src/bot/admin_handlers.py:322-377`). -/

/-- The call `self.trade_model.close_trade(trade['id'],
'ADMIN_EMERGENCY_CLOSE')` made by `_confirm_close_all_positions`
(src/bot/admin_handlers.py:348). `TradeModel.close_trade` is declared as
`close_trade(self, trade_id, close_price, final_pnl, reason)`
(src/database/models.py:776), so the two-argument call raises `TypeError`
before any row is touched. -/
def admin_close_trade_call (st : Store) (_tradeId : Nat) :
    Except PyError Store :=
  .error (.typeError
    "close_trade missing 2 required positional arguments: final_pnl and reason")

/-- `AdminHandlers._confirm_close_all_positions`
(src/bot/admin_handlers.py:322-377): fetch the active (open) trades, loop over
them attempting `close_trade` per trade inside a `try`, incrementing
`closed_count` on return and `failed_count` on exception; report the tally.
Returns the final store with the pair `(closed_count, failed_count)`. The
`FuturesTrader.close_position` adapter is never invoked (the source comments
the call out as `In real implementation: exchange_api.close_position(trade)`). -/
def confirm_close_all_positions (st : Store) : Store × Nat × Nat :=
  (get_active_trades st).foldl
    (fun acc t =>
      match admin_close_trade_call acc.1 t.id with
      | .ok st1 => (st1, acc.2.1 + 1, acc.2.2)
      | .error _ => (acc.1, acc.2.1, acc.2.2 + 1))
    (st, 0, 0)

/-! ## Concrete fixtures used to evaluate the code at specific inputs. -/

/-- Trivial network oracle for `execute_trade` (its value is irrelevant: the
paths under test never reach it). -/
def demoExecTrade : ExchangeRow → SignalRow → TradeResult :=
  fun _ _ => { success := true }

/-- The signal of the spec's distribution scenario: `Signal{symbol=BTCUSDT,
side=long, entry=35000, stop_loss=34000, take_profit=36000, leverage=10,
size%=5}`, in `pending` state. -/
def demoSignal : SignalRow :=
  { id := 10, symbol := "BTCUSDT", signalType := "BUY", entryPrice := 35000,
    stopLoss := some 34000, takeProfit := some 36000, leverage := 10,
    positionSizePercent := 5, status := "pending", expiresAt := 100,
    createdAt := 1 }

/-- Three subscribed users, each with one active auto-trade exchange; user 2's
stored ciphertexts are corrupt (its credential would fail decryption). -/
def demoStore3 : Store :=
  { users := [{ id := 1, telegramId := 101, isSubscribed := true,
                autoTrade := true },
              { id := 2, telegramId := 102, isSubscribed := true,
                autoTrade := true },
              { id := 3, telegramId := 103, isSubscribed := true,
                autoTrade := true }],
    exchanges := [{ id := 1, userId := 1, exchangeName := "binance",
                    apiKeyEncrypted := "ct-key-1",
                    apiSecretEncrypted := "ct-sec-1",
                    passphraseEncrypted := "", isActive := true,
                    autoTrade := true, leverage := 10,
                    positionSizePercent := 5 },
                  { id := 2, userId := 2, exchangeName := "binance",
                    apiKeyEncrypted := "corrupted",
                    apiSecretEncrypted := "corrupted",
                    passphraseEncrypted := "", isActive := true,
                    autoTrade := true, leverage := 10,
                    positionSizePercent := 5 },
                  { id := 3, userId := 3, exchangeName := "binance",
                    apiKeyEncrypted := "ct-key-3",
                    apiSecretEncrypted := "ct-sec-3",
                    passphraseEncrypted := "", isActive := true,
                    autoTrade := true, leverage := 10,
                    positionSizePercent := 5 }],
    signals := [demoSignal],
    trades := [] }

/-- An already-closed trade row (for the conditional-close-write claim). -/
def demoClosedTrade : TradeRow :=
  { id := 1, signalId := 10, userId := 1, exchangeName := "binance",
    symbol := "BTCUSDT", side := "BUY", quantity := 2, entryPrice := 100,
    currentPrice := some 50, pnl := 7, status := "closed", closedAt := true }

/-- Store holding only `demoClosedTrade`. -/
def demoStoreClosed : Store :=
  { users := [], exchanges := [], signals := [], trades := [demoClosedTrade] }

/-- A long position as `create_trade` records it: side `'BUY'`, entry 100,
quantity 2, currently open. -/
def demoLongTrade : TradeRow :=
  { id := 1, signalId := 20, userId := 1, exchangeName := "binance",
    symbol := "BTCUSDT", side := "BUY", quantity := 2, entryPrice := 100,
    currentPrice := none, pnl := 0, status := "open", closedAt := false }

/-- The signal row `demoLongTrade` joins against: stop_loss 95, take_profit
120. -/
def demoMonSignal : SignalRow :=
  { id := 20, symbol := "BTCUSDT", signalType := "BUY", entryPrice := 100,
    stopLoss := some 95, takeProfit := some 120, leverage := 10,
    positionSizePercent := 5, status := "processed", expiresAt := 100,
    createdAt := 1 }

/-- Store for the monitoring-engine evaluations: one open long (`'BUY'`)
trade joined to a signal with stop_loss 95 and take_profit 120. -/
def demoStoreMon : Store :=
  { users := [], exchanges := [], signals := [demoMonSignal],
    trades := [demoLongTrade] }

/-- The joined row `get_open_trades` produces for `demoLongTrade` in
`demoStoreMon`. -/
def demoOpenLong : OpenTrade :=
  { id := 1, signalId := 20, userId := 1, exchangeName := "binance",
    symbol := "BTCUSDT", side := "BUY", quantity := 2, entryPrice := 100,
    currentPrice := none, pnl := 0, stopLoss := some 95,
    takeProfit := some 120 }

/-- A short position as `create_trade` records it: side `'SELL'`, entry 100,
with take_profit 90 on its signal. -/
def demoShortTrade : TradeRow :=
  { id := 2, signalId := 21, userId := 1, exchangeName := "binance",
    symbol := "ETHUSDT", side := "SELL", quantity := 2, entryPrice := 100,
    currentPrice := none, pnl := 0, status := "open", closedAt := false }

/-- Signal joined by `demoShortTrade`: stop_loss 110, take_profit 90. -/
def demoShortSignal : SignalRow :=
  { id := 21, symbol := "ETHUSDT", signalType := "SELL", entryPrice := 100,
    stopLoss := some 110, takeProfit := some 90, leverage := 10,
    positionSizePercent := 5, status := "processed", expiresAt := 100,
    createdAt := 1 }

/-- Store with the open short trade. -/
def demoStoreShort : Store :=
  { users := [], exchanges := [], signals := [demoShortSignal],
    trades := [demoShortTrade] }

/-- The joined row `get_open_trades` produces for `demoShortTrade` in
`demoStoreShort`. -/
def demoOpenShort : OpenTrade :=
  { id := 2, signalId := 21, userId := 1, exchangeName := "binance",
    symbol := "ETHUSDT", side := "SELL", quantity := 2, entryPrice := 100,
    currentPrice := none, pnl := 0, stopLoss := some 110,
    takeProfit := some 90 }

/-- Four open positions for the admin emergency-close scenario. -/
def demoStoreFourOpen : Store :=
  { users := [], exchanges := [], signals := [],
    trades := [{ demoLongTrade with id := 1 }, { demoLongTrade with id := 2 },
               { demoLongTrade with id := 3 },
               { demoLongTrade with id := 4 }] }

/-- A concrete invertible cipher standing in for `Fernet` in witnesses: it
prepends a marker character; decryption strips it and rejects strings that do
not start with it. -/
def demoCipher : Cipher where
  enc := fun m => String.mk ('Z' :: m.data)
  dec := fun t =>
    match t.data with
    | 'Z' :: r => some (String.mk r)
    | _ => none

/-- An environment with `BOT_TOKEN` and `ADMIN_ID` set but no
`ENCRYPTION_KEY`. -/
def demoEnvNoKey : Env :=
  { botToken := some "token123", adminId := 7, encryptionKey := none }

/-! ## Helper lemmas. -/

/-- `FuturesTrader.execute_signal_trade` never writes to the store: its first
statement raises `AttributeError`, which it catches and logs. -/
theorem ft_execute_signal_trade_fst
    (f : ExchangeRow → SignalRow → TradeResult) (st : Store) (u : UserRow)
    (sig : SignalRow) : (ft_execute_signal_trade f st u sig).1 = st := rfl

/-- The whole subscriber loop of `SignalProcessor.execute_signal` leaves the
store untouched: no claim write, no order-phase store write. -/
theorem sp_order_phase_fst (f : ExchangeRow → SignalRow → TradeResult)
    (st : Store) (sig : SignalRow) : (sp_order_phase f st sig).1 = st := by
  have H : ∀ (l : List UserRow) (acc : Store × List LogEvent),
      (l.foldl (fun acc u =>
        let r := ft_execute_signal_trade f acc.1 u sig
        (r.1, acc.2 ++ r.2)) acc).1 = acc.1 := by
    intro l
    induction l with
    | nil => intro acc; rfl
    | cons u tl ih =>
        intro acc
        rw [List.foldl_cons]
        exact (ih _).trans rfl
  exact H (get_subscribed_users st) (st, [])

/-- The demo cipher inverts correctly. -/
theorem demoCipher_dec_enc (m : String) :
    demoCipher.dec (demoCipher.enc m) = some m := by
  cases m
  rfl

/-- The demo cipher maps nonempty plaintexts to nonempty ciphertexts. -/
theorem demoCipher_enc_ne (m : String) (_hm : m ≠ "") :
    demoCipher.enc m ≠ "" := by
  intro h
  have hd : ('Z' :: m.data) = ("" : String).data := congrArg String.data h
  simp at hd

/-- `'BUY'.upper()` is not `'LONG'`. -/
theorem pyUpper_BUY_LONG : (pyUpper "BUY" == "LONG") = false := by decide

/-- `'BUY'.upper()` is not `'SHORT'`. -/
theorem pyUpper_BUY_SHORT : (pyUpper "BUY" == "SHORT") = false := by decide

/-- `'SELL'.upper()` is not `'LONG'`. -/
theorem pyUpper_SELL_LONG : (pyUpper "SELL" == "LONG") = false := by decide

/-- `'SELL'.upper()` is not `'SHORT'`. -/
theorem pyUpper_SELL_SHORT : (pyUpper "SELL" == "SHORT") = false := by decide

/-- `'LONG'.upper()` is `'LONG'`. -/
theorem pyUpper_LONG_LONG : (pyUpper "LONG" == "LONG") = true := by decide

/-- `'LONG'.upper()` is not `'SHORT'`. -/
theorem pyUpper_LONG_SHORT : (pyUpper "LONG" == "SHORT") = false := by decide

/-- A trade whose stored side is `'BUY'` never trips the stop-loss trigger,
whatever the prices. -/
theorem should_close_stop_loss_BUY (c sl : ℚ) :
    should_close_stop_loss "BUY" c sl = false := by
  simp [should_close_stop_loss, pyUpper_BUY_LONG, pyUpper_BUY_SHORT]

/-- A trade whose stored side is `'SELL'` never trips the take-profit
trigger, whatever the prices. -/
theorem should_close_take_profit_SELL (c tp : ℚ) :
    should_close_take_profit "SELL" c tp = false := by
  simp [should_close_take_profit, pyUpper_SELL_LONG, pyUpper_SELL_SHORT]

/-- A `'BUY'` trade takes the short branch of the P\&L computation. -/
theorem compute_pnl_BUY (e c q : ℚ) :
    compute_pnl "BUY" e c q = (e - c) * q := by
  simp [compute_pnl, pyUpper_BUY_LONG]

/-- `get_open_trades` on the long-trade fixture. -/
theorem get_open_trades_demoStoreMon :
    get_open_trades demoStoreMon = [demoOpenLong] := by decide

/-- `get_open_trades` on the short-trade fixture. -/
theorem get_open_trades_demoStoreShort :
    get_open_trades demoStoreShort = [demoOpenShort] := by decide

/-! ## Claims. -/

/-- C1 (counterexample): on a store with three subscribed users and one
pending signal, the event trace of `SignalProcessor.execute_signal` begins
with order attempts and contains no `processing` status write — the signal is
never claimed before orders are placed; moreover, after the entire order
phase of one cycle the signal is still returned by `get_pending_signals`, so
a second overlapping cycle fetches and executes it too (both "claims"
succeed, not exactly one). -/
theorem signal_claim_counterexample :
    sp_execute_signal_events demoStore3 demoSignal =
      [SDEvent.orderAttempt 1, SDEvent.orderAttempt 2, SDEvent.orderAttempt 3,
       SDEvent.statusWrite 10 "processed"]
    ∧ get_pending_signals
        (sp_order_phase demoExecTrade demoStore3 demoSignal).1 0
        = [demoSignal] :=
  ⟨rfl, rfl⟩

/-- C1 (amended): the Signal Distribution Engine performs no pending →
`processing` claim at all. For any pending signal, the entire subscriber
(order) phase of `execute_signal` leaves the store unchanged — in particular
the signal is still `pending` while orders are attempted and a concurrent
cycle reading pending signals at any point during it still fetches the same
signal — and the trace consists of the per-user order attempts followed by
one unconditional write of `processed`. -/
theorem signal_claim_absent (f : ExchangeRow → SignalRow → TradeResult)
    (st : Store) (sig : SignalRow) (now : Nat)
    (h : sig ∈ get_pending_signals st now) :
    (sp_order_phase f st sig).1 = st
    ∧ sig ∈ get_pending_signals (sp_order_phase f st sig).1 now
    ∧ sp_execute_signal_events st sig =
        ((get_subscribed_users st).map fun u => SDEvent.orderAttempt u.id)
          ++ [SDEvent.statusWrite sig.id "processed"] := by
  refine ⟨sp_order_phase_fst f st sig, ?_, rfl⟩
  rw [sp_order_phase_fst]
  exact h

/-- C1 (witness): the amended claim applied to the three-user fixture. -/
theorem signal_claim_absent_witness :
    (sp_order_phase demoExecTrade demoStore3 demoSignal).1 = demoStore3
    ∧ demoSignal ∈ get_pending_signals
        (sp_order_phase demoExecTrade demoStore3 demoSignal).1 0
    ∧ sp_execute_signal_events demoStore3 demoSignal =
        ((get_subscribed_users demoStore3).map
            fun u => SDEvent.orderAttempt u.id)
          ++ [SDEvent.statusWrite demoSignal.id "processed"] :=
  signal_claim_absent demoExecTrade demoStore3 demoSignal 0 (by decide)

/-- C2 (counterexample): `TradeModel.close_trade` applied to an
already-closed Position does not leave it unchanged — it overwrites
`current_price` and `pnl` (here 50/7 become 60/8). -/
theorem close_trade_counterexample :
    (close_trade demoStoreClosed 1 60 8 "manual").trades
        = [{ demoClosedTrade with currentPrice := some 60, pnl := 8 }]
    ∧ (close_trade demoStoreClosed 1 60 8 "manual").trades
        ≠ demoStoreClosed.trades := by
  refine ⟨rfl, ?_⟩
  decide

/-- C2 (amended): the `status = 'closed'` transition is an unconditional
overwrite, not a conditional write: `close_trade`'s `UPDATE` is guarded only
by `id`, so a second close of the same Position performs the full update
again and completely overwrites the first one (last writer wins); neither
closer can observe a failure. -/
theorem close_trade_unconditional_overwrite (st : Store) (tid : Nat)
    (p₁ q₁ : ℚ) (r₁ : String) (p₂ q₂ : ℚ) (r₂ : String) :
    close_trade (close_trade st tid p₁ q₁ r₁) tid p₂ q₂ r₂
      = close_trade st tid p₂ q₂ r₂ := by
  cases st with
  | mk us ex sg tr =>
      unfold close_trade
      simp only [List.map_map]
      refine congrArg (Store.mk us ex sg) (List.map_congr_left ?_)
      intro t _
      by_cases h : t.id = tid
      · simp [Function.comp, h]
      · simp [Function.comp, h]

/-- C3: the spec's distribution scenario evaluated on the code. With three
subscribed users (one of whose credentials would fail decryption) and the
pending BTCUSDT signal, `SignalProcessor.execute_signal` creates zero
Position records — `FuturesTrader.execute_signal_trade` raises
`AttributeError` on the nonexistent `ExchangeAuthManager.db` before reaching
any credential, catches it, and logs one generic error per user (no
`CredentialError` is ever distinguished) — yet the signal is still marked
`processed`. -/
theorem signal_fanout_creates_no_positions :
    ((sp_execute_signal demoExecTrade demoStore3 demoSignal).1.trades = [])
    ∧ ((sp_execute_signal demoExecTrade demoStore3 demoSignal).1.signals.map
          SignalRow.status = ["processed"])
    ∧ ((sp_execute_signal demoExecTrade demoStore3 demoSignal).2 =
        [.errorLog "Error executing signal trade: AttributeError, user 1",
         .errorLog "Error executing signal trade: AttributeError, user 2",
         .errorLog "Error executing signal trade: AttributeError, user 3"]) :=
  ⟨rfl, rfl, rfl⟩

/-- C4: the P\&L sign is flipped for every long Position the system actually
stores. `create_trade` records a long as side `'BUY'`; `update_trade_pnl`'s
branch tests for the literal `'LONG'`, so the stored long falls into the
short branch: at entry=100, current=110, quantity=2 the monitoring cycle
computes and persists pnl = −20 where the spec requires +20 (only a side
stored as the literal `'LONG'` would get the spec's long formula). -/
theorem long_pnl_sign_flipped :
    create_trade_side "BUY" = "BUY"
    ∧ compute_pnl (create_trade_side "BUY") 100 110 2 = -20
    ∧ compute_pnl "LONG" 100 110 2 = 20
    ∧ (monitor_positions (fun _ _ => some 110) demoStoreMon).trades
        = [{ demoLongTrade with pnl := -20, currentPrice := some 110 }] := by
  have hside : create_trade_side "BUY" = "BUY" := rfl
  have hbuy : compute_pnl "BUY" 100 110 2 = -20 := by
    rw [compute_pnl_BUY]; norm_num
  refine ⟨hside, by rw [hside]; exact hbuy, ?_, ?_⟩
  · simp [compute_pnl, pyUpper_LONG_LONG]
    norm_num
  · simp only [monitor_positions, get_open_trades_demoStoreMon,
      List.foldl_cons, List.foldl_nil, update_trade_pnl_step]
    have ht : pyTruthy (some (110 : ℚ)) = true := by decide
    simp only [ht, if_true]
    simp only [demoOpenLong, Option.getD_some, hbuy, update_trade_pnl,
      demoStoreMon, demoLongTrade]
    simp

/-- C5: the stop-loss/take-profit triggers never fire for any Position the
system stores. The trigger tests compare the side against the literals
`'LONG'`/`'SHORT'`, while `create_trade` stores `'BUY'`/`'SELL'`: a stored
long with stop_loss 95 stays open at current_price 95 (and a stored short
with take_profit 90 stays open at 90), even though the comparisons themselves
are inclusive and would fire for a side stored as `'LONG'`. A full
`check_stop_losses` cycle at price 95 leaves the store unchanged. -/
theorem stop_loss_take_profit_triggers_dead :
    should_close_stop_loss "BUY" 95 95 = false
    ∧ should_close_take_profit "SELL" 90 90 = false
    ∧ should_close_stop_loss "LONG" 95 95 = true
    ∧ should_close_stop_loss "LONG" (9501 / 100) 95 = false
    ∧ check_stop_losses (fun _ _ => some 95) demoStoreMon = demoStoreMon
    ∧ check_take_profits (fun _ _ => some 90) demoStoreShort
        = demoStoreShort := by
  refine ⟨should_close_stop_loss_BUY 95 95, should_close_take_profit_SELL 90 90,
    ?_, ?_, ?_, ?_⟩
  · simp [should_close_stop_loss, pyUpper_LONG_LONG]
  · simp [should_close_stop_loss, pyUpper_LONG_LONG, pyUpper_LONG_SHORT]
    norm_num
  · simp only [check_stop_losses, get_open_trades_demoStoreMon,
      List.foldl_cons, List.foldl_nil]
    have hsl : pyTruthy demoOpenLong.stopLoss = true := by decide
    have ht : pyTruthy (some (95 : ℚ)) = true := by decide
    simp [hsl, ht, should_close_stop_loss_BUY, demoOpenLong]
  · simp only [check_take_profits, get_open_trades_demoStoreShort,
      List.foldl_cons, List.foldl_nil]
    have htp : pyTruthy demoOpenShort.takeProfit = true := by decide
    have ht : pyTruthy (some (90 : ℚ)) = true := by decide
    simp [htp, ht, should_close_take_profit_SELL, demoOpenShort]

/-- C6: decrypting the encryption of an (apiKey, apiSecret, passphrase)
triple returns the original triple, for any cipher that inverts its own
encryption and never produces an empty ciphertext from a nonempty plaintext
(both hold for `Fernet`); an empty passphrase is stored as the empty sentinel
and decrypts back to the empty string. -/
theorem credentials_roundtrip (c : Cipher)
    (hrt : ∀ m, c.dec (c.enc m) = some m)
    (hne : ∀ m, m ≠ "" → c.enc m ≠ "")
    (k s p : String) :
    decrypt_credentials c (encrypt_credentials c k s p).1
        (encrypt_credentials c k s p).2.1 (encrypt_credentials c k s p).2.2
      = some (k, s, p)
    ∧ (encrypt_credentials c k s "").2.2 = "" := by
  constructor
  · by_cases hp : p = ""
    · subst hp
      simp [encrypt_credentials, decrypt_credentials, hrt]
    · simp [encrypt_credentials, decrypt_credentials, hrt, hp, hne p hp]
  · simp [encrypt_credentials]

/-- C6 (witness): the round trip evaluated on the concrete demo cipher with
an empty passphrase. -/
theorem credentials_roundtrip_witness :
    decrypt_credentials demoCipher
        (encrypt_credentials demoCipher "key" "secret" "").1
        (encrypt_credentials demoCipher "key" "secret" "").2.1
        (encrypt_credentials demoCipher "key" "secret" "").2.2
      = some ("key", "secret", "")
    ∧ (encrypt_credentials demoCipher "key" "secret" "").2.2 = "" :=
  credentials_roundtrip demoCipher demoCipher_dec_enc demoCipher_enc_ne
    "key" "secret" ""

/-- C7: the admin emergency close evaluated with 4 open Positions. Every
per-trade attempt raises `TypeError` (`close_trade` is called with 2 of its 4
required arguments) and is counted as failed: the tally is
{closedCount: 0, failedCount: 4}, the store is untouched, all 4 Positions
stay open, and the `FuturesTrader.close_position` primitive is never
invoked. -/
theorem close_all_positions_tally :
    (confirm_close_all_positions demoStoreFourOpen).2 = (0, 4)
    ∧ (confirm_close_all_positions demoStoreFourOpen).1 = demoStoreFourOpen
    ∧ (get_active_trades
        (confirm_close_all_positions demoStoreFourOpen).1).length = 4 :=
  ⟨rfl, rfl, rfl⟩

/-- C8 (counterexample): `FuturesTrader.get_balance` does not signal an error
on a failed fetch — it returns the substitute value 0.0, indistinguishable
from a genuine zero balance, where the spec's contract (`spec_fetchBalance`)
fails. -/
theorem get_balance_counterexample :
    get_balance (.err "network timeout") = 0
    ∧ get_balance (.ok [("USDT", 0)]) = get_balance (.err "network timeout")
    ∧ spec_fetchBalance (.err "network timeout") = .error "network timeout" :=
  ⟨rfl, rfl, rfl⟩

/-- C8 (amended): `get_balance` returns the free USDT balance on a successful
response containing USDT, and returns 0.0 — instead of signalling
`ExchangeAPIError` — on any error and on a successful response without a
USDT entry; it never raises. -/
theorem get_balance_amended (balances bs : List (String × ℚ)) (v : ℚ)
    (m : String) (h : balances.lookup "USDT" = some v)
    (h0 : bs.lookup "USDT" = none) :
    get_balance (.ok balances) = v
    ∧ get_balance (.ok bs) = 0
    ∧ get_balance (.err m) = 0 := by
  refine ⟨?_, ?_, rfl⟩
  · simp [get_balance, h]
  · simp [get_balance, h0]

/-- C8 (witness): the amended balance contract at concrete inputs. -/
theorem get_balance_amended_witness :
    get_balance (.ok [("USDT", 25)]) = 25
    ∧ get_balance (.ok []) = 0
    ∧ get_balance (.err "boom") = 0 :=
  get_balance_amended [("USDT", 25)] [] 25 "boom" (by decide) (by decide)

/-- C9 (counterexample): with `BOT_TOKEN` and `ADMIN_ID` present but the
master encryption secret absent from the environment, startup validation
succeeds and `ENCRYPTION_KEY` silently becomes the hardcoded default — the
process does not refuse to start. -/
theorem startup_accepts_missing_master_secret :
    demoEnvNoKey.encryptionKey = none
    ∧ config_validate demoEnvNoKey = .ok ()
    ∧ config_encryption_key demoEnvNoKey = "your-secret-key-here" :=
  ⟨rfl, rfl, rfl⟩

/-- C9 (amended): startup validation rejects only a missing/empty `BOT_TOKEN`
or a zero `ADMIN_ID`; it never inspects the master encryption secret, whose
absence is silently papered over with the hardcoded default
`'your-secret-key-here'`. -/
theorem config_validate_ignores_encryption_key (env : Env)
    (hb : pyTruthyStr env.botToken = true) (ha : env.adminId ≠ 0) :
    config_validate env = .ok ()
    ∧ (env.encryptionKey = none →
        config_encryption_key env = "your-secret-key-here") := by
  constructor
  · simp [config_validate, hb, ha]
  · intro hk
    simp [config_encryption_key, hk]

/-- C9 (witness): the amended validation behaviour at the concrete
environment without a master secret. -/
theorem config_validate_ignores_encryption_key_witness :
    config_validate demoEnvNoKey = .ok ()
    ∧ (demoEnvNoKey.encryptionKey = none →
        config_encryption_key demoEnvNoKey = "your-secret-key-here") :=
  config_validate_ignores_encryption_key demoEnvNoKey (by decide) (by decide)

/-- C10: `FuturesTrader.close_position` returns the constant
`{'success': True, 'close_price': 0.0, 'pnl': 0.0}` for every trade, so every
monitoring-triggered close (`AutoTrader.close_position`, used for both
`STOP_LOSS` and `TAKE_PROFIT`) marks the Position `closed` with
current_price = 0 and pnl = 0, regardless of the market price at trigger
time. -/
theorem close_position_writes_zero (st : Store) (t : OpenTrade)
    (reason : String) :
    ft_close_position t = { success := true, closePrice := 0, pnl := 0 }
    ∧ (at_close_position st t reason).trades
        = st.trades.map (fun row =>
            if row.id = t.id then
              { row with status := "closed", currentPrice := some 0,
                         pnl := 0, closedAt := true }
            else row) :=
  ⟨rfl, rfl⟩

end FuturesBot
